import Mathlib

/-!
Shallow embedding of the `async-pixiv` client library (Python), covering the
artwork model (`src/async_pixiv/model/artwork.py`) and the illustration
endpoint section (`src/async_pixiv/client/_section/_illust.py`).

Conventions of the embedding:
* Python `str` values are Lean `String`; binary payloads are `List Nat`.
* Fallible Python code (raising exceptions) is embedded in `Except PyErr`.
* The HTTP transport (`PixivClient.get` / `PixivClient.download`, whose
  module is not part of the sources here) is an environment parameter; each
  embedded operation returns its result together with the list of requests it
  issued, so request-counting properties can be stated.
* Python truthiness: in the `x or y` chains of the source, `x` is either
  `None` (falsy) or a validated pydantic URL object (an object, hence truthy),
  so `Option`-based fallback is the exact semantics.
-/

namespace AsyncPixiv

abbrev Url := String
abbrev Bytes := List Nat

/-- Python exceptions that the embedded code can raise. -/
inductive PyErr
  | artWorkTypeError (msg : String)
  | keyError (name : String)
  | attributeError
  | indexError
  | typeError
  | valueError
  | otherError
  deriving Repr, DecidableEq

/-- The `ArtWorkType` enum from `model/artwork.py` (members illust, ugoira,
manga, novel). -/
inductive ArtWorkType
  | illust
  | ugoira
  | manga
  | novel
  deriving Repr, DecidableEq

/-- The `value` of each `ArtWorkType` enum member. -/
def ArtWorkType.value : ArtWorkType → String
  | .illust => "illust"
  | .ugoira => "ugoira"
  | .manga => "manga"
  | .novel => "novel"

/-- Behaviour of `str(x)` on an arbitrary Python object: it may return a
string or raise. -/
inductive PyStrBehavior
  | ok (s : String)
  | raisesTypeError
  | raisesValueError
  | raisesOther
  deriving Repr, DecidableEq

/-- A Python value appearing as the right operand of `ArtWorkType.__eq__`:
another enum member, a plain string, or some other object characterised by
what `str()` does on it. -/
inductive PyValue
  | artType (t : ArtWorkType)
  | pyStr (s : String)
  | obj (b : PyStrBehavior)
  deriving Repr, DecidableEq

/-- Behaviour of `str(v)` for the values of `PyValue`.  (`str` of an enum member is
`"ArtWorkType.<name>"`; that branch is unreachable in `__eq__` because the
`isinstance` test fires first.) -/
def pyStrCall : PyValue → Except PyErr String
  | .artType t => .ok ("ArtWorkType." ++ t.value)
  | .pyStr s => .ok s
  | .obj (.ok s) => .ok s
  | .obj .raisesTypeError => .error .typeError
  | .obj .raisesValueError => .error .valueError
  | .obj .raisesOther => .error .otherError

/-- Embeds `ArtWorkType.__eq__` from `model/artwork.py` lines 56-63: value equality
against another member; otherwise compare `self.value == str(other)`, with
`TypeError`/`ValueError` from `str` caught and turned into `False`. -/
def ArtWorkType.eqPy (t : ArtWorkType) (other : PyValue) : Except PyErr Bool :=
  match other with
  | .artType u => .ok (t.value == u.value)
  | v =>
    match pyStrCall v with
    | .ok s => .ok (t.value == s)
    | .error .typeError => .ok false
    | .error .valueError => .ok false
    | .error e => .error e

/-- The `Tag` record (shape as in the flat `model.py`): a name and an optional
translated name. -/
structure Tag where
  name : String
  translated_name : Option String
  deriving Repr, DecidableEq

/-- Modelled from the spec: the "image-URL bundle (multiple resolution
variants)" entity with "optional-field fallback chaining" — the module
`model/other.py` defining `ImageUrl` is not among the sources, so every
resolution variant is an optional URL. -/
structure ImageUrl where
  square_medium : Option Url
  medium : Option Url
  large : Option Url
  original : Option Url
  deriving Repr, DecidableEq

/-- Modelled from the spec: the flat "user" record attached to an artwork
(`model/user.py` is not among the sources; no claim reads its fields). -/
structure User where
  id : Int
  name : String
  account : String
  deriving Repr, DecidableEq

/-- Modelled from the spec: series pointer (`model/other.py` not among the
sources; no claim reads its fields). -/
structure Series where
  id : Int
  title : String
  deriving Repr, DecidableEq

/-- Embeds `ArtWork.MetaSinglePage`: optional original image URL. -/
structure MetaSinglePage where
  original : Option Url
  deriving Repr, DecidableEq

/-- Embeds `ArtWork.MetaPage`: an image-URL bundle per page. -/
structure MetaPage where
  image_urls : ImageUrl
  deriving Repr, DecidableEq

/-- The `ArtWork` record from `model/artwork.py` (datetimes kept as
strings). -/
structure ArtWork where
  id : Int
  title : String
  type : ArtWorkType
  image_urls : ImageUrl
  caption : String
  restrict : Int
  user : User
  tags : List Tag
  tools : List String
  create_date : String
  page_count : Int
  width : Int
  height : Int
  sanity_level : Int
  x_restrict : Int
  series : Option Series
  meta_single_page : MetaSinglePage
  meta_pages : List MetaPage
  total_view : Int
  total_bookmarks : Int
  is_bookmarked : Bool
  visible : Bool
  is_muted : Bool
  total_comments : Option Int
  comment_access_control : Option Int
  deriving Repr, DecidableEq

/-- Embeds `UgoiraMetadata.Frame`: a ZIP member name and a display duration. -/
structure Frame where
  file : String
  delay : Int
  deriving Repr, DecidableEq

/-- Embeds `UgoiraMetadata`: the ZIP location bundle plus the ordered frame list. -/
structure UgoiraMetadata where
  zip_url : ImageUrl
  frames : List Frame
  deriving Repr, DecidableEq

/-- Embeds `ArtWork.is_nsfw` (artwork.py lines 100-102): `sanity_level > 5`. -/
def ArtWork.is_nsfw (a : ArtWork) : Bool :=
  a.sanity_level > 5

/-- Python list indexing `xs[i]`, raising `IndexError` out of range. -/
def pyIndex {α : Type} (xs : List α) (i : Nat) : Except PyErr α :=
  match xs.get? i with
  | some x => .ok x
  | none => .error .indexError

/-- ASCII model of Python `str.title()`: the first cased character of every
run of letters is uppercased, the following letters are lowercased; other
characters pass through and restart a word. -/
def pyTitleAux : Bool → List Char → List Char
  | _, [] => []
  | prevCased, c :: rest =>
    if c.isAlpha then
      (if prevCased then c.toLower else c.toUpper) :: pyTitleAux true rest
    else
      c :: pyTitleAux false rest

/-- Python `s.title()` on a string. -/
def pyTitle (s : String) : String :=
  ⟨pyTitleAux false s.data⟩

/-- Python `s.replace("-", "")`: remove every hyphen. -/
def removeHyphens (s : String) : String :=
  ⟨s.data.filter (fun c => c ≠ '-')⟩

/-- Embeds `ArtWork.is_r18` (artwork.py lines 104-108): guarded first-tag lookup,
then compare the title-cased, de-hyphenated tag name with "R18". -/
def ArtWork.is_r18 (a : ArtWork) : Except PyErr Bool :=
  if a.tags.length ≥ 1 then do
    let t ← pyIndex a.tags 0
    pure (removeHyphens (pyTitle t.name) == "R18")
  else
    pure false

/-- Python `x or y` on optional URL values: `None` is falsy and a validated
pydantic URL object is truthy, so the left operand wins whenever present. -/
def pyOr (a b : Option Url) : Option Url :=
  match a with
  | some x => some x
  | none => b

/-- Python `str(x)` on an optional URL: `str(None)` is the string "None". -/
def pyStrOfUrl : Option Url → String
  | some u => u
  | none => "None"

/-- A request issued against the vendor: an API `GET` (via `client.get`), or
a binary transport download (via `client.download`, carrying the url argument
— possibly `None` — and the `output` argument it was given). -/
inductive Request
  | apiGet (path : String)
  | download (url : Option Url) (output : Option String)
  deriving Repr, DecidableEq

/-- Modelled from the spec: the HTTP transport and schema layer behind
`PixivClient` (its module is not among the sources).  `detailResult` is the
artwork the detail endpoint parses for an id, `ugoiraMeta` the ugoira
metadata manifest for an id, `transport url` the optional binary payload
`client.download` returns, and `zipParse` the member table `ZipFile` reads
out of a payload. -/
structure Env where
  detailResult : Int → ArtWork
  ugoiraMeta : Int → UgoiraMetadata
  transport : Option Url → Option Bytes
  zipParse : Bytes → List (String × Bytes)

/-- URL chosen for a single-page static download (artwork.py lines 172-176,
_illust.py lines 232-236): `meta_single_page.original or image_urls.original
or image_urls.large`. -/
def staticSingleUrl (aw : ArtWork) : Option Url :=
  pyOr aw.meta_single_page.original
    (pyOr aw.image_urls.original aw.image_urls.large)

/-- URL chosen per page of a multi-page static download (artwork.py lines
181-183, _illust.py lines 245-247): `image_urls.original or
image_urls.large`. -/
def staticPageUrl (p : MetaPage) : Option Url :=
  pyOr p.image_urls.original p.image_urls.large

/-- URL chosen for the ugoira ZIP payload (artwork.py lines 214-216,
_illust.py lines 268-270): `zip_url.original or zip_url.large or
zip_url.medium`. -/
def zipUrlChoice (u : ImageUrl) : Option Url :=
  pyOr u.original (pyOr u.large u.medium)

/-- The fallback rule exactly as the spec words it: the original field if
present, otherwise the large field if present, otherwise the medium field. -/
def specFallbackUrl (u : ImageUrl) : Option Url :=
  if u.original.isSome then u.original
  else if u.large.isSome then u.large
  else u.medium

/-- The `ArtWorkTypeError` message of `ILLUST.download` (_illust.py lines
225-228). -/
def ugoiraDownloadHint : String :=
  "If you want to download a moving image, please use this method: \"download_ugoira\""

/-- The `ArtWorkTypeError` message of `ArtWork.download_ugoira` (artwork.py
lines 205-208). -/
def staticDownloadHint : String :=
  "If you want to download a moving image, please use this method: \"download\""

namespace ILLUST

/-- Embeds `ILLUST.download` (_illust.py lines 213-251): fetch the detail record,
raise `ArtWorkTypeError` on a ugoira artwork, then download either the
single-page URL or one URL per meta page; `output` is forwarded to
`client.download` in both branches.  Returns the result paired with the
requests issued. -/
def download (env : Env) (id : Int) (full : Bool) (output : Option String) :
    Except PyErr (List (Option Bytes)) × List Request :=
  let artwork := env.detailResult id
  let reqs0 := [Request.apiGet "v1/illust/detail"]
  if artwork.type == ArtWorkType.ugoira then
    (.error (.artWorkTypeError ugoiraDownloadHint), reqs0)
  else if !full || artwork.meta_pages.isEmpty then
    let url := some (pyStrOfUrl (staticSingleUrl artwork))
    (.ok [env.transport url], reqs0 ++ [Request.download url output])
  else
    let urls := artwork.meta_pages.map (fun p => some (pyStrOfUrl (staticPageUrl p)))
    (.ok (urls.map env.transport),
      reqs0 ++ urls.map (fun u => Request.download u output))

end ILLUST

/-- Embeds `ArtWork.download` (artwork.py lines 162-184): no artwork-type check;
the single-page branch calls `client.download(str(...))` WITHOUT passing the
`output` argument (source line 172), the multi-page branch passes
`output=output`. -/
def ArtWork.download (env : Env) (aw : ArtWork) (full : Bool)
    (output : Option String) :
    Except PyErr (List (Option Bytes)) × List Request :=
  if !full || aw.meta_pages.isEmpty then
    let url := some (pyStrOfUrl (staticSingleUrl aw))
    (.ok [env.transport url], [Request.download url none])
  else
    let urls := aw.meta_pages.map (fun p => some (pyStrOfUrl (staticPageUrl p)))
    (.ok (urls.map env.transport), urls.map (fun u => Request.download u output))

/-- The `type` argument of the ugoira downloaders: "zip", "jpg", "all" or
"iter". -/
inductive UgoiraDlType
  | zip
  | jpg
  | all
  | iter
  deriving Repr, DecidableEq

/-- What a ugoira downloader can return: the ZipFile, the frame list, an
iterator over the frames, or the dict holding the ZipFile under key "zip"
and the frame list under key "frames". -/
inductive UgoiraResult
  | zipFile (archive : List (String × Bytes))
  | frames (fs : List Bytes)
  | iterFrames (fs : List Bytes)
  | all (archive : List (String × Bytes)) (fs : List Bytes)
  deriving Repr, DecidableEq

/-- Embeds `zip_file.open(name)` followed by `.read()`: the content of the first
member with that name, `KeyError` when absent. -/
def zipRead (archive : List (String × Bytes)) (name : String) :
    Except PyErr Bytes :=
  match archive.lookup name with
  | some b => .ok b
  | none => .error (.keyError name)

/-- The frame-reading loop shared verbatim by both ugoira downloaders
(artwork.py lines 222-225, _illust.py lines 276-279): read the member named
by each manifest frame, in manifest order. -/
def readFrames (archive : List (String × Bytes)) :
    List Frame → Except PyErr (List Bytes)
  | [] => .ok []
  | f :: rest => do
    let b ← zipRead archive f.file
    let bs ← readFrames archive rest
    pure (b :: bs)

/-- The tail both ugoira downloaders share once the ZIP payload is in hand
(artwork.py lines 217-231, _illust.py lines 271-285): return `None` when the
transport yielded no data; return the ZipFile alone for type "zip" before
any frame is read; otherwise read the frames and dispatch on the type. -/
def ugoiraAssemble (env : Env) (metadata : UgoiraMetadata)
    (data : Option Bytes) (ty : UgoiraDlType) :
    Except PyErr (Option UgoiraResult) :=
  match data with
  | none => .ok none
  | some d =>
    let archive := env.zipParse d
    if ty == UgoiraDlType.zip then
      .ok (some (.zipFile archive))
    else
      match readFrames archive metadata.frames with
      | .error e => .error e
      | .ok fs =>
        if ty == UgoiraDlType.jpg then .ok (some (.frames fs))
        else if ty == UgoiraDlType.iter then .ok (some (.iterFrames fs))
        else .ok (some (.all archive fs))

namespace ILLUST

/-- Embeds `ILLUST.download_ugoira` (_illust.py lines 253-285): fetch the ugoira
metadata, download the ZIP from the original-or-large-or-medium URL (no
artwork-type check here), and assemble the requested result. -/
def download_ugoira (env : Env) (id : Int) (ty : UgoiraDlType) :
    Except PyErr (Option UgoiraResult) × List Request :=
  let metadata := env.ugoiraMeta id
  let url := zipUrlChoice metadata.zip_url
  let reqs := [Request.apiGet "v1/ugoira/metadata", Request.download url none]
  (ugoiraAssemble env metadata (env.transport url) ty, reqs)

end ILLUST

/-- Embeds `ArtWork.ugoira_metadata` (artwork.py lines 186-194): `None` without any
request when the artwork is not a ugoira, otherwise the metadata from the
ugoira-metadata endpoint. -/
def ArtWork.ugoira_metadata (env : Env) (aw : ArtWork) :
    Option UgoiraMetadata × List Request :=
  if aw.type == ArtWorkType.ugoira then
    (some (env.ugoiraMeta aw.id), [Request.apiGet "v1/ugoira/metadata"])
  else
    (none, [])

/-- Embeds `ArtWork.download_ugoira` (artwork.py lines 197-231): raise
`ArtWorkTypeError` unless the artwork's type is ugoira, then fetch the
metadata, download the ZIP and assemble the requested result.  (On a `None`
metadata the attribute access `metadata.zip_url` would raise
`AttributeError`; the preceding type check makes that branch unreachable.) -/
def ArtWork.download_ugoira (env : Env) (aw : ArtWork) (ty : UgoiraDlType) :
    Except PyErr (Option UgoiraResult) × List Request :=
  if !(aw.type == ArtWorkType.ugoira) then
    (.error (.artWorkTypeError staticDownloadHint), [])
  else
    match ArtWork.ugoira_metadata env aw with
    | (none, reqs) => (.error .attributeError, reqs)
    | (some metadata, reqs0) =>
      let url := zipUrlChoice metadata.zip_url
      let reqs := reqs0 ++ [Request.download url none]
      (ugoiraAssemble env metadata (env.transport url) ty, reqs)

/-- A value placed in the `params` dict handed to `client.get`. -/
inductive ParamValue
  | int (n : Int)
  | str (s : String)
  | list (xs : List ParamValue)
  | none

/-- The `seed_ids` argument of `ILLUST.related`: omitted (`None`), a single
id, or a list of ids. -/
inductive SeedIds
  | noneArg
  | one (n : Int)
  | many (ns : List Int)
  deriving Repr, DecidableEq

/-- The Python expression `seed_ids is not list` (_illust.py line 139): an
identity comparison between the argument and the builtin type object `list`.
The argument is `None`, an `int` or a `list` instance — never the type
object itself — so the identity test `seed_ids is list` is always false. -/
def seedIdsIsListType : SeedIds → Bool :=
  fun _ => false

/-- The params-dict value for a `SeedIds` argument. -/
def seedIdsValue : SeedIds → ParamValue
  | .noneArg => ParamValue.none
  | .one n => ParamValue.int n
  | .many ns => ParamValue.list (ns.map ParamValue.int)

/-- The `seed_illust_ids` entry built by `ILLUST.related` (_illust.py lines
138-140): `[seed_ids] if seed_ids is not list else seed_ids`. -/
def relatedSeedParam (seed_ids : SeedIds) : ParamValue :=
  if ¬(seedIdsIsListType seed_ids) then
    ParamValue.list [seedIdsValue seed_ids]
  else
    seedIdsValue seed_ids

/-- The full params dict of `ILLUST.related` (_illust.py lines 131-142). -/
def relatedParams (id : Int) (offset : Option Int) (filter : Option String)
    (seed_ids : SeedIds) : List (String × ParamValue) :=
  [("illust_id", ParamValue.int id),
   ("offset", match offset with | some n => ParamValue.int n | none => ParamValue.none),
   ("filter", match filter with | some s => ParamValue.str s | none => ParamValue.none),
   ("seed_illust_ids", relatedSeedParam seed_ids)]

/-! Concrete fixtures used by witnesses and counterexamples. -/

/-- A bundle with no URL at all. -/
def emptyImageUrl : ImageUrl := ⟨none, none, none, none⟩

/-- A bundle carrying only the medium resolution. -/
def mediumOnlyBundle : ImageUrl :=
  ⟨none, some "https://img.example/only_medium.jpg", none, none⟩

def sampleUser : User := ⟨1, "artist", "artist_account"⟩

/-- A plain single-page illustration. -/
def sampleArtWork : ArtWork :=
  { id := 7
    title := "sample"
    type := ArtWorkType.illust
    image_urls := emptyImageUrl
    caption := ""
    restrict := 0
    user := sampleUser
    tags := []
    tools := []
    create_date := "2020-01-01T00:00:00+09:00"
    page_count := 1
    width := 100
    height := 100
    sanity_level := 2
    x_restrict := 0
    series := none
    meta_single_page := ⟨some "https://img.example/7_p0_orig.png"⟩
    meta_pages := []
    total_view := 0
    total_bookmarks := 0
    is_bookmarked := false
    visible := true
    is_muted := false
    total_comments := none
    comment_access_control := none }

/-- The same record as a ugoira. -/
def sampleUgoira : ArtWork :=
  { sampleArtWork with id := 8, type := ArtWorkType.ugoira }

/-- An illustration whose bundles carry only the medium resolution. -/
def mediumOnlyArtWork : ArtWork :=
  { sampleArtWork with
    id := 9
    image_urls := mediumOnlyBundle
    meta_single_page := ⟨none⟩ }

/-- A two-frame ugoira manifest whose ZIP location offers only medium. -/
def sampleMeta : UgoiraMetadata :=
  ⟨⟨none, some "https://img.example/8_ugoira.zip", none, none⟩,
   [⟨"000000.jpg", 100⟩, ⟨"000001.jpg", 120⟩]⟩

/-- The ZIP payload the transport serves for the sample ugoira. -/
def sampleZipData : Bytes := [9, 9]

/-- The member table of the sample ZIP payload. -/
def sampleArchive : List (String × Bytes) :=
  [("000000.jpg", [1, 2]), ("000001.jpg", [3, 4])]

/-- An environment whose detail endpoint serves the ugoira for id 8 and the
plain illustration otherwise, and whose transport always yields data. -/
def env0 : Env :=
  { detailResult := fun i =>
      if i == 8 then sampleUgoira
      else if i == 9 then mediumOnlyArtWork
      else sampleArtWork
    ugoiraMeta := fun _ => sampleMeta
    transport := fun u =>
      if u == zipUrlChoice sampleMeta.zip_url then some sampleZipData
      else some [5]
    zipParse := fun d => if d == sampleZipData then sampleArchive else [] }

/-- The same environment with a transport that yields no data. -/
def env1 : Env :=
  { env0 with transport := fun _ => none }

/-- Decidable equality of `Except` results, so concrete runs can be checked
by `decide`. -/
instance {ε α : Type} [DecidableEq ε] [DecidableEq α] :
    DecidableEq (Except ε α) := fun a b =>
  match a, b with
  | .ok x, .ok y =>
    if h : x = y then .isTrue (by rw [h])
    else .isFalse (by intro he; cases he; exact h rfl)
  | .error x, .error y =>
    if h : x = y then .isTrue (by rw [h])
    else .isFalse (by intro he; cases he; exact h rfl)
  | .ok _, .error _ => .isFalse (by intro he; cases he)
  | .error _, .ok _ => .isFalse (by intro he; cases he)

/-! Helper lemmas. -/

/-- When every manifest frame names a present ZIP member, the frame loop
returns exactly the member contents, in manifest order. -/
lemma readFrames_eq_map (archive : List (String × Bytes)) (fs : List Frame)
    (h : ∀ f ∈ fs, (archive.lookup f.file).isSome = true) :
    readFrames archive fs =
      .ok (fs.map fun f => (archive.lookup f.file).getD []) := by
  induction fs with
  | nil => rfl
  | cons f rest ih =>
    obtain ⟨b, hb⟩ := Option.isSome_iff_exists.mp (h f (by simp))
    have hrest := ih (fun g hg => h g (by simp [hg]))
    simp [readFrames, zipRead, hb, hrest, Option.getD]
    rfl

/-! Theorems settling the claims. -/

/-- C7: the derived adult-content property `is_nsfw` holds exactly when the
record's `sanity_level` field is strictly greater than 5. -/
theorem c7_is_nsfw_iff (a : ArtWork) :
    a.is_nsfw = true ↔ a.sanity_level > 5 := by
  simp [ArtWork.is_nsfw]

/-- C9: `is_r18` never fails: on an empty tag list it is `False` (the
guarded indexing is not reached), and on a non-empty list it holds exactly
when the first tag's name, title-cased with hyphens removed, is "R18". -/
theorem c9_is_r18_total (a : ArtWork) :
    a.is_r18 = .ok (match a.tags with
      | [] => false
      | t :: _ => removeHyphens (pyTitle t.name) == "R18") := by
  cases h : a.tags with
  | nil =>
    simp [ArtWork.is_r18, h]
    rfl
  | cons t ts => simp [ArtWork.is_r18, h, pyIndex]

/-- C10: `ArtWorkType` equality is value-based and string-compatible:
reflexive; member-to-member comparison is comparison of underlying values
(hence an equivalence with member identity); member-to-string comparison is
comparison of the value with the string (so `ugoira == "ugoira"`); and when
`str(other)` raises `TypeError` or `ValueError` the comparison is `False`
rather than an error. -/
theorem c10_arttype_eq (t u : ArtWorkType) (s : String) :
    ArtWorkType.eqPy t (.artType t) = .ok true ∧
    ArtWorkType.eqPy t (.artType u) = .ok (t.value == u.value) ∧
    (ArtWorkType.eqPy t (.artType u) = .ok true ↔ t = u) ∧
    ArtWorkType.eqPy t (.pyStr s) = .ok (t.value == s) ∧
    ArtWorkType.eqPy ArtWorkType.ugoira (.pyStr "ugoira") = .ok true ∧
    ArtWorkType.eqPy t (.obj PyStrBehavior.raisesTypeError) = .ok false ∧
    ArtWorkType.eqPy t (.obj PyStrBehavior.raisesValueError) = .ok false := by
  refine ⟨?_, ?_, ?_, ?_, ?_, ?_, ?_⟩ <;>
    first
      | (cases t <;> cases u <;> decide)
      | (cases t <;> simp [ArtWorkType.eqPy, pyStrCall, ArtWorkType.value])

/-- C5 (code evaluated at the failing inputs): because `seed_ids is not
list` is an identity test against the type object and thus always true, a
caller-supplied list is wrapped into a nested singleton list instead of
being forwarded verbatim, and an omitted (`None`) argument becomes the
one-element list `[None]` instead of being absent; only the single-id case
matches the claim. -/
theorem c5_seed_param_eval :
    relatedSeedParam (SeedIds.many [1, 2]) =
      ParamValue.list [ParamValue.list [ParamValue.int 1, ParamValue.int 2]] ∧
    relatedSeedParam SeedIds.noneArg = ParamValue.list [ParamValue.none] ∧
    relatedSeedParam (SeedIds.one 5) = ParamValue.list [ParamValue.int 5] :=
  ⟨rfl, rfl, rfl⟩

/-- C4 (code evaluated at the failing input): on a single-page artwork with
a caller-supplied output destination, `ArtWork.download` issues its
transport download with `output=None` — the destination is dropped — while
the same call through `ILLUST.download` forwards the destination. -/
theorem c4_output_dropped :
    (ArtWork.download env0 sampleArtWork false (some "out.png")).2 =
      [Request.download (some "https://img.example/7_p0_orig.png") none] ∧
    (ILLUST.download env0 7 false (some "out.png")).2 =
      [Request.apiGet "v1/illust/detail",
       Request.download (some "https://img.example/7_p0_orig.png") (some "out.png")] := by
  constructor <;> rfl

/-- C3 (amended): the ugoira ZIP location follows the full fallback chain
original, else large, else medium; the static-image download paths follow
only original, else large — they never fall back to medium — and the
single-page path prefers `meta_single_page.original` before the bundle. -/
theorem c3_fallback_amended (u : ImageUrl) (p : MetaPage) (aw : ArtWork) :
    zipUrlChoice u = specFallbackUrl u ∧
    staticPageUrl p =
      (if p.image_urls.original.isSome then p.image_urls.original
       else p.image_urls.large) ∧
    staticSingleUrl aw =
      (if aw.meta_single_page.original.isSome then aw.meta_single_page.original
       else if aw.image_urls.original.isSome then aw.image_urls.original
       else aw.image_urls.large) := by
  refine ⟨?_, ?_, ?_⟩
  · cases h1 : u.original <;> cases h2 : u.large <;>
      simp [zipUrlChoice, specFallbackUrl, pyOr, h1, h2]
  · cases h1 : p.image_urls.original <;> simp [staticPageUrl, pyOr, h1]
  · cases h1 : aw.meta_single_page.original <;>
      cases h2 : aw.image_urls.original <;>
      simp [staticSingleUrl, pyOr, h1, h2]

/-- C3 counterexample: on a bundle carrying only the medium resolution, the
static-image path does not fall back to medium — the spec's chain picks the
medium URL while the code picks nothing and downloads the literal string
"None". -/
theorem c3_counterexample :
    staticSingleUrl mediumOnlyArtWork ≠
      specFallbackUrl mediumOnlyArtWork.image_urls ∧
    (ILLUST.download env0 9 false none).2 =
      [Request.apiGet "v1/illust/detail", Request.download (some "None") none] := by
  constructor
  · decide
  · rfl

/-- C1 (amended): `ILLUST.download` on a ugoira artwork raises
`ArtWorkTypeError`, and `ArtWork.download_ugoira` on a non-ugoira artwork
raises `ArtWorkTypeError`; but `ArtWork.download` performs no type check at
all and succeeds on any artwork, ugoira included. -/
theorem c1_wrong_method_errors (env : Env) (id : Int) (full : Bool)
    (output : Option String) (aw aw2 : ArtWork) (ty : UgoiraDlType)
    (h1 : (env.detailResult id).type = ArtWorkType.ugoira)
    (h2 : aw.type ≠ ArtWorkType.ugoira) :
    (ILLUST.download env id full output).1 =
      .error (.artWorkTypeError ugoiraDownloadHint) ∧
    (ArtWork.download_ugoira env aw ty).1 =
      .error (.artWorkTypeError staticDownloadHint) ∧
    ∃ r, (ArtWork.download env aw2 full output).1 = .ok r := by
  refine ⟨?_, ?_, ?_⟩
  · simp [ILLUST.download, h1]
  · simp [ArtWork.download_ugoira, h2]
  · unfold ArtWork.download
    split
    · exact ⟨_, rfl⟩
    · exact ⟨_, rfl⟩

/-- C1 witness: the amended statement at the sample environment. -/
theorem c1_wrong_method_errors_witness :
    (env0.detailResult 8).type = ArtWorkType.ugoira ∧
    sampleArtWork.type ≠ ArtWorkType.ugoira ∧
    ((ILLUST.download env0 8 false none).1 =
        .error (.artWorkTypeError ugoiraDownloadHint) ∧
      (ArtWork.download_ugoira env0 sampleArtWork UgoiraDlType.zip).1 =
        .error (.artWorkTypeError staticDownloadHint) ∧
      ∃ r, (ArtWork.download env0 sampleArtWork false none).1 = .ok r) :=
  ⟨by decide, by decide,
    c1_wrong_method_errors env0 8 false none sampleArtWork sampleArtWork
      UgoiraDlType.zip (by decide) (by decide)⟩

/-- C1 counterexample: `ArtWork.download` invoked on a ugoira artwork does
not raise `ArtWorkTypeError` — it downloads the static URL and returns
normally. -/
theorem c1_counterexample :
    (ArtWork.download env0 sampleUgoira false none).1 = .ok [some [5]] := by
  decide

/-- C6 (amended): accessing the vendor is not single-request for the
download helpers: `ILLUST.download_ugoira` always issues exactly two
requests (metadata plus ZIP download), `ArtWork.download_ugoira` likewise on
a ugoira artwork, and `ILLUST.download` on a non-ugoira artwork issues the
detail request plus one transport download per downloaded page — two in the
single-page case. -/
theorem c6_request_counts (env : Env) (id : Int) (ty : UgoiraDlType)
    (output : Option String) (aw : ArtWork)
    (h1 : (env.detailResult id).type ≠ ArtWorkType.ugoira)
    (h2 : aw.type = ArtWorkType.ugoira) :
    (ILLUST.download_ugoira env id ty).2.length = 2 ∧
    (ArtWork.download_ugoira env aw ty).2.length = 2 ∧
    (ILLUST.download env id false output).2.length = 2 ∧
    (ILLUST.download env id true output).2.length =
      1 + max 1 (env.detailResult id).meta_pages.length := by
  refine ⟨rfl, ?_, ?_, ?_⟩
  · simp [ArtWork.download_ugoira, h2, ArtWork.ugoira_metadata]
  · simp [ILLUST.download, h1]
  · cases hmp : (env.detailResult id).meta_pages with
    | nil => simp [ILLUST.download, h1, hmp]
    | cons p ps => simp [ILLUST.download, h1, hmp, Nat.add_comm]

/-- C6 witness: the amended request counts at the sample environment. -/
theorem c6_request_counts_witness :
    (env0.detailResult 7).type ≠ ArtWorkType.ugoira ∧
    sampleUgoira.type = ArtWorkType.ugoira ∧
    ((ILLUST.download_ugoira env0 7 UgoiraDlType.zip).2.length = 2 ∧
      (ArtWork.download_ugoira env0 sampleUgoira UgoiraDlType.zip).2.length = 2 ∧
      (ILLUST.download env0 7 false none).2.length = 2 ∧
      (ILLUST.download env0 7 true none).2.length =
        1 + max 1 (env0.detailResult 7).meta_pages.length) :=
  ⟨by decide, by decide,
    c6_request_counts env0 7 UgoiraDlType.zip none sampleUgoira
      (by decide) (by decide)⟩

/-- C6 counterexample: a single `download_ugoira` call issues more than one
request against the vendor (the metadata request and the ZIP download). -/
theorem c6_counterexample :
    1 < (ILLUST.download_ugoira env0 8 UgoiraDlType.zip).2.length := by
  decide

/-- Evaluation of the shared ugoira tail on present data: "zip" returns the
archive before any frame is read, "jpg" the member contents in manifest
order, "all" both. -/
lemma ugoiraAssemble_eval (env : Env) (md : UgoiraMetadata) (data : Bytes)
    (h : ∀ f ∈ md.frames, ((env.zipParse data).lookup f.file).isSome = true) :
    ugoiraAssemble env md (some data) UgoiraDlType.jpg =
      .ok (some (.frames (md.frames.map
        fun f => ((env.zipParse data).lookup f.file).getD []))) ∧
    ugoiraAssemble env md (some data) UgoiraDlType.all =
      .ok (some (.all (env.zipParse data) (md.frames.map
        fun f => ((env.zipParse data).lookup f.file).getD []))) ∧
    ugoiraAssemble env md (some data) UgoiraDlType.zip =
      .ok (some (.zipFile (env.zipParse data))) := by
  have hr := readFrames_eq_map (env.zipParse data) md.frames h
  refine ⟨?_, ?_, ?_⟩ <;> simp [ugoiraAssemble, hr]

/-- C2: with the ZIP payload in hand, `download_ugoira` (both the section
method and the model method) with type "jpg" returns one payload per
manifest frame — the content of the ZIP member named by that frame, in
manifest order; with type "all" the same list together with the ZipFile;
with type "zip" the ZipFile alone, without reading any frame (so it succeeds
even under a parser in which no member exists). -/
theorem c2_download_ugoira_frames (env : Env) (aw : ArtWork) (data : Bytes)
    (h0 : aw.type = ArtWorkType.ugoira)
    (h1 : env.transport (zipUrlChoice (env.ugoiraMeta aw.id).zip_url) = some data)
    (h2 : ∀ f ∈ (env.ugoiraMeta aw.id).frames,
      ((env.zipParse data).lookup f.file).isSome = true) :
    (ILLUST.download_ugoira env aw.id UgoiraDlType.jpg).1 =
      .ok (some (.frames ((env.ugoiraMeta aw.id).frames.map
        fun f => ((env.zipParse data).lookup f.file).getD []))) ∧
    (ILLUST.download_ugoira env aw.id UgoiraDlType.all).1 =
      .ok (some (.all (env.zipParse data) ((env.ugoiraMeta aw.id).frames.map
        fun f => ((env.zipParse data).lookup f.file).getD []))) ∧
    (ILLUST.download_ugoira env aw.id UgoiraDlType.zip).1 =
      .ok (some (.zipFile (env.zipParse data))) ∧
    (ILLUST.download_ugoira { env with zipParse := fun _ => [] }
        aw.id UgoiraDlType.zip).1 =
      .ok (some (.zipFile [])) ∧
    (ArtWork.download_ugoira env aw UgoiraDlType.jpg).1 =
      .ok (some (.frames ((env.ugoiraMeta aw.id).frames.map
        fun f => ((env.zipParse data).lookup f.file).getD []))) ∧
    (ArtWork.download_ugoira env aw UgoiraDlType.all).1 =
      .ok (some (.all (env.zipParse data) ((env.ugoiraMeta aw.id).frames.map
        fun f => ((env.zipParse data).lookup f.file).getD []))) ∧
    (ArtWork.download_ugoira env aw UgoiraDlType.zip).1 =
      .ok (some (.zipFile (env.zipParse data))) := by
  obtain ⟨hjpg, hall, hzip⟩ := ugoiraAssemble_eval env (env.ugoiraMeta aw.id) data h2
  refine ⟨?_, ?_, ?_, ?_, ?_, ?_, ?_⟩
  · simp [ILLUST.download_ugoira, h1, hjpg]
  · simp [ILLUST.download_ugoira, h1, hall]
  · simp [ILLUST.download_ugoira, h1, hzip]
  · simp [ILLUST.download_ugoira, h1, ugoiraAssemble]
  · simp [ArtWork.download_ugoira, h0, ArtWork.ugoira_metadata, h1, hjpg]
  · simp [ArtWork.download_ugoira, h0, ArtWork.ugoira_metadata, h1, hall]
  · simp [ArtWork.download_ugoira, h0, ArtWork.ugoira_metadata, h1, hzip]

/-- C2 witness: the frame extraction at the sample ugoira, whose two-frame
manifest matches the sample archive. -/
theorem c2_download_ugoira_frames_witness :
    sampleUgoira.type = ArtWorkType.ugoira ∧
    env0.transport (zipUrlChoice (env0.ugoiraMeta sampleUgoira.id).zip_url) =
      some sampleZipData ∧
    (∀ f ∈ (env0.ugoiraMeta sampleUgoira.id).frames,
      ((env0.zipParse sampleZipData).lookup f.file).isSome = true) ∧
    (ILLUST.download_ugoira env0 sampleUgoira.id UgoiraDlType.jpg).1 =
      .ok (some (.frames ((env0.ugoiraMeta sampleUgoira.id).frames.map
        fun f => ((env0.zipParse sampleZipData).lookup f.file).getD []))) :=
  ⟨by decide, by decide, by decide,
    (c2_download_ugoira_frames env0 sampleUgoira sampleZipData
      (by decide) (by decide) (by decide)).1⟩

/-- C8: when the transport yields no data for the ZIP payload, both
`download_ugoira` methods return `None` for every requested type, without
raising and without touching the ZIP. -/
theorem c8_no_data_returns_none (env : Env) (aw : ArtWork) (ty : UgoiraDlType)
    (h0 : aw.type = ArtWorkType.ugoira)
    (h1 : env.transport (zipUrlChoice (env.ugoiraMeta aw.id).zip_url) = none) :
    (ILLUST.download_ugoira env aw.id ty).1 = .ok none ∧
    (ArtWork.download_ugoira env aw ty).1 = .ok none := by
  constructor
  · simp [ILLUST.download_ugoira, h1, ugoiraAssemble]
  · simp [ArtWork.download_ugoira, h0, ArtWork.ugoira_metadata, h1,
      ugoiraAssemble]

/-- C8 witness: the sample ugoira under the no-data transport. -/
theorem c8_no_data_returns_none_witness :
    sampleUgoira.type = ArtWorkType.ugoira ∧
    env1.transport (zipUrlChoice (env1.ugoiraMeta sampleUgoira.id).zip_url) =
      none ∧
    (ILLUST.download_ugoira env1 sampleUgoira.id UgoiraDlType.jpg).1 =
      .ok none ∧
    (ArtWork.download_ugoira env1 sampleUgoira UgoiraDlType.jpg).1 =
      .ok none :=
  ⟨by decide, by decide,
    (c8_no_data_returns_none env1 sampleUgoira UgoiraDlType.jpg
      (by decide) (by decide)).1,
    (c8_no_data_returns_none env1 sampleUgoira UgoiraDlType.jpg
      (by decide) (by decide)).2⟩

end AsyncPixiv
